import Mathlib

/-!
Verification of the ecosystem-mcp-server orchestration layer: a shallow
embedding of the request dispatch state machine, the polling loop, the
Notion request-store adapter, the staleness probes and the daily-briefing
summary generator, with theorems settling the specification's claims.

Python dictionaries with `.get` defaults are embedded as structures whose
fields carry the default when the key is absent; code points of Python
strings are Lean `Char`s; a raised-and-caught exception is an
`Except.error` value.
-/

namespace Ecosystem

/-- Renders an optional string the way a Python f-string renders a
possibly-None variable: `None` prints as the text "None". -/
def pyOptStr : Option String → String
  | some s => s
  | none => "None"

/-- Python dict `.get(key, default)` on an optional field. -/
def pyGet (o : Option String) (dflt : String) : String :=
  match o with
  | some s => s
  | none => dflt

/-- Python string slicing `s[:n]`: the first `n` code points of `s`.
Python strings are sequences of code points, so slicing never splits a
multi-byte encoding unit. -/
def pySlice (s : String) (n : Nat) : String :=
  ⟨s.data.take n⟩

/- =========================================================================
   daily_briefing._generate_summary (daily_briefing.py lines 361-389)
   ========================================================================= -/

/-- The calendar sub-dict of a briefing: `available` and `event_count`
as read by `_generate_summary` via `.get` (missing keys default to
falsy / 0). -/
structure CalendarInfo where
  available : Bool
  event_count : Nat
  deriving DecidableEq, Repr

/-- The fields of the briefing dict that `_generate_summary` reads, with
the `.get` defaults (0 for the counts) already applied; `calendar = none`
models a briefing generated with `include_calendar=False`, in which case
every `.get` on the empty dict yields its default. -/
structure BriefingData where
  attention_needed : Nat
  healthy : Nat
  total_pending : Nat
  pending_count : Nat
  calendar : Option CalendarInfo
  deriving DecidableEq, Repr

/-- Embedding of `_generate_summary` (daily_briefing.py lines 361-389):
builds the list `parts` of conditionally-present clauses and returns
them joined by ". " with a trailing period, or the literal "All clear!"
when `parts` is empty. -/
def generate_summary (b : BriefingData) : String :=
  let parts : List String :=
    (if b.attention_needed > 0 then
      [toString b.attention_needed ++ " system(s) need attention"]
     else
      ["All " ++ toString b.healthy ++ " systems healthy"]) ++
    (if b.total_pending > 0 then
      [toString b.total_pending ++ " document(s) pending"]
     else []) ++
    (if b.pending_count > 0 then
      [toString b.pending_count ++ " automation request(s) queued"]
     else []) ++
    (match b.calendar with
     | some c =>
        if c.available && c.event_count > 0 then
          [toString c.event_count ++ " event(s) today"]
        else []
     | none => [])
  if parts = [] then "All clear!" else String.intercalate ". " parts ++ "."

/-- The spec's fixed "all clear" briefing input: attention_needed 0,
healthy 5, total_pending 0, pending_count 0, calendar not available. -/
def allClearInput : BriefingData :=
  { attention_needed := 0
    healthy := 5
    total_pending := 0
    pending_count := 0
    calendar := some { available := false, event_count := 0 } }

/-- The spec's fixed busy briefing input: attention_needed 2,
total_pending 3, pending_count 1, calendar available with 2 events. -/
def busyInput : BriefingData :=
  { attention_needed := 2
    healthy := 3
    total_pending := 3
    pending_count := 1
    calendar := some { available := true, event_count := 2 } }

/- =========================================================================
   Command Dispatcher (notion_control.py lines 335-448)
   ========================================================================= -/

/-- An automation request as parsed from a Notion page by
`parse_request_page` (notion_control.py lines 244-278): the select
properties may be absent, in which case they parse to None. -/
structure Request where
  id : String
  request : String
  type_ : Option String
  target : Option String
  status : Option String
  created : Option String
  url : Option String
  deriving DecidableEq, Repr

/-- Parsed JSON of `server.organize_downloads` as read by
`execute_organize`: an optional "error" field, and the "remaining"
counts with `.get` defaults 0. -/
structure OrganizeData where
  error : Option String
  remaining_pdfs : Nat
  remaining_media : Nat
  deriving DecidableEq, Repr

/-- Parsed JSON of `server.extract_tax_documents` as read by
`execute_extract`. -/
structure ExtractData where
  error : Option String
  success : Bool
  processed : Nat
  needs_review : Nat
  deriving DecidableEq, Repr

/-- Parsed JSON of `server.sync_notion_context` as read by
`execute_sync`. -/
structure SyncData where
  error : Option String
  success : Bool
  last_sync : Option String
  deriving DecidableEq, Repr

/-- Parsed JSON of `server.run_reconciliation` as read by
`execute_reconcile`: `status` is read with default "unknown" but unused
by the dispatcher. -/
structure ReconcileData where
  error : Option String
  issue_count : Nat
  issues : List String
  status : String
  deriving DecidableEq, Repr

/-- The `(success, result_message, error_message)` tuple every
`execute_*` handler returns. -/
abbrev ExecOutcome : Type := Bool × Option String × Option String

/-- Embedding of `execute_organize` (notion_control.py lines 370-387)
applied to the parsed JSON of the underlying operation; the choice of
file-type filter by target affects only the external call, not the
outcome shape. -/
def execute_organize (_target : Option String) (d : OrganizeData) : ExecOutcome :=
  match d.error with
  | some e => (false, none, some e)
  | none =>
      (true,
       some ("Organized files. Remaining: " ++ toString d.remaining_pdfs ++
             " PDFs, " ++ toString d.remaining_media ++ " media"),
       none)

/-- Embedding of `execute_extract` (notion_control.py lines 390-405):
after the "error" key check fails, `data.get("error", "Extraction
failed")` always yields the default. -/
def execute_extract (d : ExtractData) : ExecOutcome :=
  match d.error with
  | some e => (false, none, some e)
  | none =>
      if d.success then
        (true,
         some ("Extracted " ++ toString d.processed ++ " documents. " ++
               toString d.needs_review ++ " need review."),
         none)
      else
        (false, none, some "Extraction failed")

/-- Embedding of `execute_sync` (notion_control.py lines 408-421); the
target argument is accepted and ignored, as in the source. -/
def execute_sync (_target : Option String) (d : SyncData) : ExecOutcome :=
  match d.error with
  | some e => (false, none, some e)
  | none =>
      if d.success then
        (true,
         some ("Context synced. Last sync: " ++ pyGet d.last_sync "unknown"),
         none)
      else
        (false, none, some "Sync failed")

/-- Embedding of `execute_reconcile` (notion_control.py lines 424-441):
reports success whenever the parsed JSON has no "error" field, whatever
the issue count. -/
def execute_reconcile (d : ReconcileData) : ExecOutcome :=
  match d.error with
  | some e => (false, none, some e)
  | none =>
      if d.issue_count = 0 then
        (true, some "All systems healthy. No issues found.", none)
      else
        (true,
         some ("Found " ++ toString d.issue_count ++ " issues: " ++
               String.intercalate "; " (d.issues.take 3)),
         none)

/-- Embedding of `execute_custom` (notion_control.py lines 444-448):
logs the request text for manual handling and reports success
unconditionally; no keyword is recognized. -/
def execute_custom (request_text : String) (target : Option String) : ExecOutcome :=
  (true,
   some ("Custom request logged: '" ++ request_text ++ "' (target: " ++
         pyOptStr target ++ "). Requires manual handling."),
   none)

/-- Outcomes of the underlying server operations for one dispatch: each
field is the parsed JSON the corresponding `execute_*` handler reads, or
`Except.error` when obtaining or parsing it raised (caught by
`execute_request`). -/
structure Env where
  organize : Except String OrganizeData
  extract : Except String ExtractData
  sync : Except String SyncData
  reconcile : Except String ReconcileData

/-- The try/except wrapper of `execute_request`: a raised exception is
converted to `(False, None, str(e))`. -/
def runCatch {α : Type} (x : Except String α) (f : α → ExecOutcome) : ExecOutcome :=
  match x with
  | .error e => (false, none, some e)
  | .ok d => f d

/-- Embedding of `execute_request` (notion_control.py lines 335-367):
the if/elif dispatch table over the request type, with the catch-all
"Unknown request type" failure; None renders as "None" in the message
as in the Python f-string. -/
def execute_request (env : Env) (req : Request) : ExecOutcome :=
  if req.type_ = some "organize" then runCatch env.organize (execute_organize req.target)
  else if req.type_ = some "extract" then runCatch env.extract execute_extract
  else if req.type_ = some "sync" then runCatch env.sync (execute_sync req.target)
  else if req.type_ = some "reconcile" then runCatch env.reconcile execute_reconcile
  else if req.type_ = some "custom" then execute_custom req.request req.target
  else (false, none, some ("Unknown request type: " ++ pyOptStr req.type_))

/-- A default environment where every underlying operation completed
cleanly. -/
def env0 : Env :=
  { organize := .ok { error := none, remaining_pdfs := 0, remaining_media := 0 }
    extract := .ok { error := none, success := true, processed := 0, needs_review := 0 }
    sync := .ok { error := none, success := true, last_sync := none }
    reconcile := .ok { error := none, issue_count := 0, issues := [], status := "healthy" } }

/-- A custom request whose argument text is the "daily-briefing"
keyword the spec mentions. -/
def reqCustomBriefing : Request :=
  { id := "page-1", request := "daily-briefing", type_ := some "custom"
    target := some "personal", status := some "queued"
    created := some "2026-01-01", url := none }

/-- A request with an unrecognized command tag. -/
def reqUnknown : Request :=
  { id := "page-2", request := "do something", type_ := some "frobnicate"
    target := some "all", status := some "queued"
    created := some "2026-01-02", url := none }

/-- A reconciliation request. -/
def reqReconcile : Request :=
  { id := "page-3", request := "check everything", type_ := some "reconcile"
    target := some "all", status := some "queued"
    created := some "2026-01-03", url := none }

/- =========================================================================
   Request Store Adapter (notion_control.py lines 202-328)
   ========================================================================= -/

/-- Status constant "queued" (notion_control.py line 62). -/
def STATUS_QUEUED : String := "queued"

/-- Status constant "running" (notion_control.py line 63). -/
def STATUS_RUNNING : String := "running"

/-- Status constant "done" (notion_control.py line 64). -/
def STATUS_DONE : String := "done"

/-- Status constant "failed" (notion_control.py line 65). -/
def STATUS_FAILED : String := "failed"

/-- The properties payload a call to `update_request_status`
(notion_control.py lines 281-328) sends to the store: the new status, a
Completed timestamp when terminal, and the optionally attached result
and error texts. -/
structure UpdateProps where
  status : String
  completedSet : Bool
  resultWrite : Option String
  errorWrite : Option String
  deriving DecidableEq, Repr

/-- Embedding of `update_request_status` (notion_control.py lines
281-328): the Completed date is set exactly for terminal statuses, and
a truthy (non-empty) result or error string is truncated to its first
2000 code points before the write-back; an empty or absent string is
not written at all. -/
def update_request_status (status : String) (result : Option String)
    (error : Option String) : UpdateProps :=
  { status := status
    completedSet := status == STATUS_DONE || status == STATUS_FAILED
    resultWrite :=
      match result with
      | some r => if r = "" then none else some (pySlice r 2000)
      | none => none
    errorWrite :=
      match error with
      | some e => if e = "" then none else some (pySlice e 2000)
      | none => none }

/-- A raw Notion page as accessed by `parse_request_page`
(notion_control.py lines 244-278): `id = none` models a page dict
without an "id" key (`page["id"]` raises); each entry of `title_items`
is the item's `["text"]["content"]`, `none` when that access raises; a
select or date property is `none` when absent (`.get` yields None) and
`some none` when present but without the accessed key (raising). -/
structure NotionPage where
  id : Option String
  url : Option String
  title_items : List (Option String)
  type_sel : Option (Option String)
  target_sel : Option (Option String)
  status_sel : Option (Option String)
  created_date : Option (Option String)
  deriving DecidableEq, Repr

/-- Reads a select/date property the way `parse_request_page` does:
absent property parses to None; present property with the accessed key
parses to its value; present property without it raises (None result of
the whole parse). -/
def readSelect : Option (Option String) → Option (Option String)
  | none => some none
  | some (some n) => some (some n)
  | some none => none

/-- Embedding of `parse_request_page` (notion_control.py lines 244-278):
any raising access inside the try block yields `none` (the except branch
logs and returns None); otherwise the parsed request dict. -/
def parse_request_page (page : NotionPage) : Option Request := do
  let title ←
    match page.title_items with
    | [] => some ""
    | some c :: _ => some c
    | none :: _ => none
  let type_val ← readSelect page.type_sel
  let target_val ← readSelect page.target_sel
  let status_val ← readSelect page.status_sel
  let created_val ← readSelect page.created_date
  let pid ← page.id
  some { id := pid, request := title, type_ := type_val, target := target_val
         status := status_val, created := created_val, url := page.url }

/-- Outcome of the store query inside `get_pending_requests`
(notion_control.py lines 202-241): missing client or configuration,
an APIResponseError raised by the query, or the returned pages. -/
inductive FetchResult where
  | noClient
  | noDatabase
  | apiError (msg : String)
  | ok (pages : List NotionPage)
  deriving Repr

/-- Embedding of `get_pending_requests` (notion_control.py lines
202-241): every failure path returns the empty list, and each returned
page is parsed, a page parsing to None being skipped. -/
def get_pending_requests : FetchResult → List Request
  | .noClient => []
  | .noDatabase => []
  | .apiError _ => []
  | .ok pages => pages.filterMap parse_request_page

/- =========================================================================
   Polling Loop (notion_control.py lines 455-502)
   ========================================================================= -/

/-- Embedding of one request's processing inside `poll_and_process`
(notion_control.py lines 472-488): mark running, execute, then write
done with the result on success or failed with the error otherwise.
Each element is the page id and the properties written to it. -/
def processRequest (env : Env) (req : Request) : List (String × UpdateProps) :=
  let claim := (req.id, update_request_status STATUS_RUNNING none none)
  match execute_request env req with
  | (success, result, error) =>
      if success then
        [claim, (req.id, update_request_status STATUS_DONE result none)]
      else
        [claim, (req.id, update_request_status STATUS_FAILED none error)]

/-- The status writes of one polling pass (notion_control.py lines
465-493, the `once=True` happy path where the writes succeed): fetch the
pending requests and process them strictly sequentially. -/
def pollPassWrites (env : Env) (fetch : FetchResult) : List (String × UpdateProps) :=
  (get_pending_requests fetch).flatMap (processRequest env)

/- =========================================================================
   Status Probe staleness checks (server.py lines 393-469)
   ========================================================================= -/

/-- Embedding of the legacy pickle-session branch of
`check_monarch_money` (server.py lines 415-427): the session age in
whole days (`timedelta.days` truncates) against the 7-day threshold;
returns the status tag and the attention entries added. -/
def monarchLegacySessionCheck (ageSeconds : Nat) : String × List String :=
  let age_days := ageSeconds / 86400
  if age_days > 7 then ("stale", ["Session may need refresh (>7 days old)"])
  else ("connected", [])

/-- Embedding of the session-file branch of `check_monarch_money`
(server.py lines 397-414): whole-day age against the 14- and 10-day
thresholds. -/
def monarchSessionFileCheck (ageSeconds : Nat) : String × List String :=
  let age_days := ageSeconds / 86400
  if age_days > 14 then ("likely_expired", ["Session likely expired (>14 days old)"])
  else if age_days > 10 then ("stale", ["Session may need refresh (>10 days old)"])
  else ("unknown", [])

/-- Embedding of the staleness check of `check_context_sync` (server.py
lines 452-464): the age in fractional hours (`total_seconds()/3600`)
against the 36-hour threshold. -/
def contextSyncCheck (ageSeconds : Nat) : String × List String :=
  let age_hours : ℚ := (ageSeconds : ℚ) / 3600
  if age_hours > 36 then ("stale", ["Sync may be stale (>36 hours)"])
  else ("synced", [])

/- =========================================================================
   Operation Log writes per dispatch (server.py, notion_control.py)
   ========================================================================= -/

/-- Operation Log rows written by one invocation of
`server.organize_downloads` (server.py lines 761-841): every code path
— missing repository, completed run, exception handler — calls
`log_operation` exactly once. -/
def organize_downloads_logWrites : Except String OrganizeData → Nat
  | .error _ => 1
  | .ok _ => 1

/-- Operation Log rows written by one invocation of
`server.extract_tax_documents` (server.py lines 907-971): every code
path calls `log_operation` exactly once. -/
def extract_tax_documents_logWrites : Except String ExtractData → Nat
  | .error _ => 1
  | .ok _ => 1

/-- Operation Log rows written by one invocation of
`server.sync_notion_context` (server.py lines 845-903): every code path
calls `log_operation` exactly once. -/
def sync_notion_context_logWrites : Except String SyncData → Nat
  | .error _ => 1
  | .ok _ => 1

/-- Operation Log rows written by one invocation of
`server.run_reconciliation` (server.py lines 1213-1308): every code
path calls `log_operation` exactly once. -/
def run_reconciliation_logWrites : Except String ReconcileData → Nat
  | .error _ => 1
  | .ok _ => 1

/-- Operation Log rows written during one dispatch by the polling loop
(`execute_request`, notion_control.py lines 335-367): the recognized
non-custom commands invoke a server tool which logs once;
`execute_custom` and the unknown-command branch call no server tool and
write nothing to the Operation Log. -/
def dispatchLogWrites (env : Env) (req : Request) : Nat :=
  if req.type_ = some "organize" then organize_downloads_logWrites env.organize
  else if req.type_ = some "extract" then extract_tax_documents_logWrites env.extract
  else if req.type_ = some "sync" then sync_notion_context_logWrites env.sync
  else if req.type_ = some "reconcile" then run_reconciliation_logWrites env.reconcile
  else if req.type_ = some "custom" then 0
  else 0

/-- A well-formed pending-request page. -/
def goodPage : NotionPage :=
  { id := some "page-good", url := some "https://example.invalid/p"
    title_items := [some "Organize tax docs"]
    type_sel := some (some "organize"), target_sel := some (some "tax")
    status_sel := some (some "queued"), created_date := some (some "2026-01-05") }

/-- A malformed page: the dict has no "id" key, so `page["id"]` raises
inside the try block and the parse returns None. -/
def badPage : NotionPage :=
  { id := none, url := none
    title_items := [some "Broken"]
    type_sel := some (some "sync"), target_sel := none
    status_sel := some (some "queued"), created_date := none }

end Ecosystem

/-- Appending distributes over the character data of strings. -/
theorem string_data_append (a b : String) : (a ++ b).data = a.data ++ b.data := by
  cases a; cases b; rfl

/-- A string starting with the literal "Found " is never empty. -/
theorem found_prefix_ne_empty (x : String) : "Found " ++ x ≠ "" := by
  intro h
  have hd : ("Found " ++ x).data = ("" : String).data := by rw [h]
  rw [string_data_append] at hd
  simp at hd

/-- C4 counterexample: a request with the unrecognized command
"frobnicate" is not routed to custom handling with success=true as the
claim states: the dispatcher fails it immediately; and the custom
request whose argument is "daily-briefing" is handled exactly like any
other custom request (logged for manual handling), with no specific
action run for the keyword. -/
theorem c4_custom_counterexample :
    Ecosystem.execute_request Ecosystem.env0 Ecosystem.reqUnknown =
      (false, none, some "Unknown request type: frobnicate") ∧
    Ecosystem.execute_request Ecosystem.env0 Ecosystem.reqCustomBriefing =
      Ecosystem.execute_custom "daily-briefing" (some "personal") := by
  constructor
  · rfl
  · rfl

/-- C4 amended: every request with command "custom" is logged verbatim
as requiring manual handling and reports success=true unconditionally —
no keyword (such as "daily-briefing") triggers a specific action — and
a request with an unrecognized command is not routed to custom
handling: it fails immediately with an "Unknown request type" error. -/
theorem c4_custom_always_logs (env : Ecosystem.Env) (req : Ecosystem.Request) :
    (req.type_ = some "custom" →
      Ecosystem.execute_request env req =
        (true,
         some ("Custom request logged: '" ++ req.request ++ "' (target: " ++
               Ecosystem.pyOptStr req.target ++ "). Requires manual handling."),
         none)) ∧
    (∀ t, req.type_ = some t →
      t ≠ "organize" → t ≠ "extract" → t ≠ "sync" → t ≠ "reconcile" →
      t ≠ "custom" →
      Ecosystem.execute_request env req =
        (false, none, some ("Unknown request type: " ++ t))) := by
  constructor
  · intro h
    simp [Ecosystem.execute_request, h, Ecosystem.execute_custom]
  · intro t ht h1 h2 h3 h4 h5
    simp [Ecosystem.execute_request, ht, h1, h2, h3, h4, h5, Ecosystem.pyOptStr]

/-- C4 witness: the amended statement evaluated at the concrete
"daily-briefing" custom request and at the concrete unrecognized
command "frobnicate". -/
theorem c4_custom_always_logs_witness :
    Ecosystem.execute_request Ecosystem.env0 Ecosystem.reqCustomBriefing =
      (true,
       some "Custom request logged: 'daily-briefing' (target: personal). Requires manual handling.",
       none) ∧
    Ecosystem.execute_request Ecosystem.env0 Ecosystem.reqUnknown =
      (false, none, some "Unknown request type: frobnicate") := by
  constructor
  · rw [(c4_custom_always_logs Ecosystem.env0 Ecosystem.reqCustomBriefing).1 rfl]
    rfl
  · rw [(c4_custom_always_logs Ecosystem.env0 Ecosystem.reqUnknown).2 "frobnicate"
      rfl (by decide) (by decide) (by decide) (by decide) (by decide)]
    rfl

/-- C5: for every reconciliation dispatch whose underlying operation
completed and parsed without an "error" field, the dispatcher reports
success=true with a non-empty result string, whatever the issue
count. -/
theorem c5_reconcile_always_succeeds (env : Ecosystem.Env)
    (req : Ecosystem.Request) (d : Ecosystem.ReconcileData)
    (hreq : req.type_ = some "reconcile") (henv : env.reconcile = .ok d)
    (hd : d.error = none) :
    ∃ s, Ecosystem.execute_request env req = (true, some s, none) ∧ s ≠ "" := by
  simp only [Ecosystem.execute_request, hreq]
  norm_num
  rw [henv]
  simp only [Ecosystem.runCatch, Ecosystem.execute_reconcile, hd]
  by_cases h0 : d.issue_count = 0
  · exact ⟨"All systems healthy. No issues found.", by simp [h0], by decide⟩
  · refine ⟨"Found " ++ (toString d.issue_count ++ " issues: " ++
      String.intercalate "; " (d.issues.take 3)), ?_, found_prefix_ne_empty _⟩
    simp [h0, String.append_assoc]

/-- C5 witness: the theorem evaluated at a concrete reconcile request
in an environment whose reconciliation returned zero issues. -/
theorem c5_reconcile_always_succeeds_witness :
    ∃ s, Ecosystem.execute_request Ecosystem.env0 Ecosystem.reqReconcile =
      (true, some s, none) ∧ s ≠ "" :=
  c5_reconcile_always_succeeds Ecosystem.env0 Ecosystem.reqReconcile
    { error := none, issue_count := 0, issues := [], status := "healthy" }
    rfl rfl rfl

/-- C2 counterexample: on the spec's fixed input {attention_needed:0,
healthy:5, total_pending:0, pending_count:0, calendar unavailable} the
generated summary is "All 5 systems healthy.", not the claimed
"All clear!": the ecosystem clause is appended unconditionally, so the
empty-parts branch producing "All clear!" is unreachable. -/
theorem c2_summary_all_clear_counterexample :
    Ecosystem.generate_summary Ecosystem.allClearInput = "All 5 systems healthy." ∧
    Ecosystem.generate_summary Ecosystem.allClearInput ≠ "All clear!" := by
  constructor
  · rfl
  · decide

/-- Appending the trailing period to the healthy clause reassociates to
the literal sentence. -/
theorem healthy_clause_append (t : String) :
    ("All " ++ t ++ " systems healthy") ++ "." =
      "All " ++ t ++ " systems healthy." := by
  rw [String.append_assoc]
  congr 1

/-- C2 amended: whenever no conditional clause applies (no attention
needed, no pending documents, no queued automation requests, and no
calendar contribution), the summary is the literal string
"All {healthy} systems healthy." — never "All clear!", since the first
clause is unconditional. -/
theorem c2_summary_no_clause (b : Ecosystem.BriefingData)
    (h1 : b.attention_needed = 0) (h2 : b.total_pending = 0)
    (h3 : b.pending_count = 0)
    (h4 : match b.calendar with
          | some c => c.available = false ∨ c.event_count = 0
          | none => True) :
    Ecosystem.generate_summary b =
      "All " ++ toString b.healthy ++ " systems healthy." := by
  unfold Ecosystem.generate_summary
  rcases hc : b.calendar with _ | c
  · simp only [h1, h2, h3, hc]
    norm_num
    exact healthy_clause_append (toString b.healthy)
  · rw [hc] at h4
    rcases h4 with h4 | h4 <;>
    · simp only [h1, h2, h3, hc, h4]
      norm_num
      exact healthy_clause_append (toString b.healthy)

/-- C2 witness: the amended statement evaluated at the spec's fixed
input yields "All 5 systems healthy.". -/
theorem c2_summary_no_clause_witness :
    Ecosystem.generate_summary Ecosystem.allClearInput =
      "All " ++ toString Ecosystem.allClearInput.healthy ++ " systems healthy." :=
  c2_summary_no_clause Ecosystem.allClearInput rfl rfl rfl (Or.inl rfl)

/-- C3: on the spec's fixed input {attention_needed:2, total_pending:3,
pending_count:1, calendar available with 2 events} the generated summary
is exactly the four clauses joined by ". " with a trailing period. -/
theorem c3_summary_busy :
    Ecosystem.generate_summary Ecosystem.busyInput =
      "2 system(s) need attention. 3 document(s) pending. 1 automation request(s) queued. 2 event(s) today." :=
  rfl

/-- C1: for every environment and fetched request, the polling loop
writes the status "running" before executing the mapped operation and
then exactly one terminal write, "done" with the result on success or
"failed" with the error otherwise — a processed request is never left
in "running" once the pass completes (the writes themselves assumed to
succeed). -/
theorem c1_poll_marks_done_or_failed (env : Ecosystem.Env)
    (req : Ecosystem.Request) :
    ∃ res err fin,
      (fin = Ecosystem.STATUS_DONE ∨ fin = Ecosystem.STATUS_FAILED) ∧
      Ecosystem.processRequest env req =
        [(req.id, Ecosystem.update_request_status Ecosystem.STATUS_RUNNING none none),
         (req.id, Ecosystem.update_request_status fin res err)] := by
  rcases h : Ecosystem.execute_request env req with ⟨s, r, e⟩
  cases s
  · exact ⟨none, e, Ecosystem.STATUS_FAILED, Or.inr rfl,
      by simp [Ecosystem.processRequest, h]⟩
  · exact ⟨r, none, Ecosystem.STATUS_DONE, Or.inl rfl,
      by simp [Ecosystem.processRequest, h]⟩

/-- C6 counterexample: a legacy Monarch session aged exactly one second
past the 7-day threshold is still reported "connected" with no
attention entry — `timedelta.days` truncates to whole days, so the
status does not flip one second past the threshold as the claim
requires. -/
theorem c6_boundary_counterexample :
    Ecosystem.monarchLegacySessionCheck (7 * 86400 + 1) = ("connected", []) ∧
    (Ecosystem.monarchLegacySessionCheck (7 * 86400 + 1)).1 ≠ "stale" := by
  constructor
  · rfl
  · decide

/-- C6 amended: at exactly the threshold no check flips (7.00 days is
"connected", 36.00 hours is "synced"); the hour-granularity context-sync
check flips one second past its 36-hour threshold, but the
day-granularity Monarch checks truncate the age to whole days and so
flip only once the age reaches the next whole day past the threshold
(8, 11 and 15 days respectively). -/
theorem c6_staleness_boundaries :
    Ecosystem.monarchLegacySessionCheck (7 * 86400) = ("connected", []) ∧
    (∀ s : Nat, Ecosystem.monarchLegacySessionCheck s =
      if 8 * 86400 ≤ s then ("stale", ["Session may need refresh (>7 days old)"])
      else ("connected", [])) ∧
    (∀ s : Nat, Ecosystem.monarchSessionFileCheck s =
      if 15 * 86400 ≤ s then ("likely_expired", ["Session likely expired (>14 days old)"])
      else if 11 * 86400 ≤ s then ("stale", ["Session may need refresh (>10 days old)"])
      else ("unknown", [])) ∧
    Ecosystem.contextSyncCheck (36 * 3600) = ("synced", []) ∧
    Ecosystem.contextSyncCheck (36 * 3600 + 1) =
      ("stale", ["Sync may be stale (>36 hours)"]) := by
  refine ⟨rfl, ?_, ?_, ?_, ?_⟩
  · intro s
    have e7 : s / 86400 > 7 ↔ 8 * 86400 ≤ s := by omega
    simp only [Ecosystem.monarchLegacySessionCheck, e7]
  · intro s
    have e14 : s / 86400 > 14 ↔ 15 * 86400 ≤ s := by omega
    have e10 : s / 86400 > 10 ↔ 11 * 86400 ≤ s := by omega
    simp only [Ecosystem.monarchSessionFileCheck, e14, e10]
  · show (if ((36 * 3600 : Nat) : ℚ) / 3600 > 36 then _ else _) = _
    norm_num
  · show (if ((36 * 3600 + 1 : Nat) : ℚ) / 3600 > 36 then _ else _) = _
    norm_num

/-- C7: a non-empty result (or error) string attached on finalization
is written back truncated to its first 2000 code points: the written
text's characters are exactly the first 2000 characters of the input
(so no multi-byte encoding unit is ever split), a string longer than
2000 becomes exactly 2000 characters, and a string of at most 2000 is
written unchanged. -/
theorem c7_truncation_exact (st s : String) (h : s ≠ "") :
    (Ecosystem.update_request_status st (some s) none).resultWrite =
      some (Ecosystem.pySlice s 2000) ∧
    (Ecosystem.update_request_status st none (some s)).errorWrite =
      some (Ecosystem.pySlice s 2000) ∧
    (Ecosystem.pySlice s 2000).data = s.data.take 2000 ∧
    (2000 < s.length → (Ecosystem.pySlice s 2000).length = 2000) ∧
    (s.length ≤ 2000 → Ecosystem.pySlice s 2000 = s) := by
  refine ⟨?_, ?_, rfl, ?_, ?_⟩
  · simp [Ecosystem.update_request_status, h]
  · simp [Ecosystem.update_request_status, h]
  · intro hlen
    have hlen' : 2000 < s.data.length := hlen
    show (s.data.take 2000).length = 2000
    rw [List.length_take]
    omega
  · intro hlen
    have hlen' : s.data.length ≤ 2000 := hlen
    show String.mk (s.data.take 2000) = s
    rw [List.take_of_length_le hlen']

/-- C7 witness: the theorem evaluated at a short non-ASCII string,
which is written back unchanged. -/
theorem c7_truncation_exact_witness :
    (Ecosystem.update_request_status "done" (some "héllo") none).resultWrite =
      some (Ecosystem.pySlice "héllo" 2000) ∧
    (Ecosystem.update_request_status "done" none (some "héllo")).errorWrite =
      some (Ecosystem.pySlice "héllo" 2000) ∧
    (Ecosystem.pySlice "héllo" 2000).data = "héllo".data.take 2000 ∧
    (2000 < "héllo".length → (Ecosystem.pySlice "héllo" 2000).length = 2000) ∧
    ("héllo".length ≤ 2000 → Ecosystem.pySlice "héllo" 2000 = "héllo") :=
  c7_truncation_exact "done" "héllo" (by decide)

/-- C8 counterexample: dispatching a request with command "custom"
(and likewise one with an unrecognized command) writes no Operation Log
row at all — the log count increases by 0, not by exactly one as the
claim states for every dispatch attempt. -/
theorem c8_log_counterexample :
    Ecosystem.dispatchLogWrites Ecosystem.env0 Ecosystem.reqCustomBriefing = 0 ∧
    Ecosystem.reqCustomBriefing.type_ = some "custom" ∧
    Ecosystem.dispatchLogWrites Ecosystem.env0 Ecosystem.reqUnknown = 0 :=
  ⟨rfl, rfl, rfl⟩

/-- C8 amended: a dispatch of one of the four recognized non-custom
commands (organize, extract, sync, reconcile) writes exactly one
Operation Log row, success or failure — the single write made inside
the underlying tool, not one before and one after — while custom and
unknown-command dispatches write none. -/
theorem c8_log_writes_per_dispatch (env : Ecosystem.Env)
    (req : Ecosystem.Request) :
    Ecosystem.dispatchLogWrites env req =
      if req.type_ = some "organize" ∨ req.type_ = some "extract" ∨
         req.type_ = some "sync" ∨ req.type_ = some "reconcile" then 1
      else 0 := by
  by_cases h1 : req.type_ = some "organize"
  · simp [Ecosystem.dispatchLogWrites, h1]
    cases env.organize <;> rfl
  by_cases h2 : req.type_ = some "extract"
  · simp [Ecosystem.dispatchLogWrites, h1, h2]
    cases env.extract <;> rfl
  by_cases h3 : req.type_ = some "sync"
  · simp [Ecosystem.dispatchLogWrites, h1, h2, h3]
    cases env.sync <;> rfl
  by_cases h4 : req.type_ = some "reconcile"
  · simp [Ecosystem.dispatchLogWrites, h1, h2, h3, h4]
    cases env.reconcile <;> rfl
  by_cases h5 : req.type_ = some "custom" <;>
    simp [Ecosystem.dispatchLogWrites, h1, h2, h3, h4, h5]

/-- C9: every transport/API failure during the fetch of queued requests
(an APIResponseError from the store query) is caught and the fetch
returns the empty list, so the polling pass treats it as zero pending
requests, performs no status write, and completes instead of
crashing — as do the missing-client and missing-configuration paths. -/
theorem c9_fetch_failure_empty (msg : String) (env : Ecosystem.Env) :
    Ecosystem.get_pending_requests (.apiError msg) = [] ∧
    Ecosystem.pollPassWrites env (.apiError msg) = [] ∧
    Ecosystem.get_pending_requests .noClient = [] ∧
    Ecosystem.get_pending_requests .noDatabase = [] :=
  ⟨rfl, rfl, rfl, rfl⟩

/-- C10: a fetched page whose parsing raises is converted to None and
silently omitted from the result list while every other page is parsed
and returned: the fetch over any surrounding pages equals the fetch
without the malformed page, and the fetch itself is a total function
that never returns an error shape. -/
theorem c10_malformed_page_skipped (l1 l2 : List Ecosystem.NotionPage)
    (p : Ecosystem.NotionPage) (hp : Ecosystem.parse_request_page p = none) :
    Ecosystem.get_pending_requests (.ok (l1 ++ p :: l2)) =
      Ecosystem.get_pending_requests (.ok l1) ++
      Ecosystem.get_pending_requests (.ok l2) := by
  simp [Ecosystem.get_pending_requests, List.filterMap_append,
    List.filterMap_cons, hp]

/-- C10 witness: the theorem evaluated with one good page before a
malformed page (no "id" key): the good page is parsed and returned, the
malformed one is skipped. -/
theorem c10_malformed_page_skipped_witness :
    Ecosystem.get_pending_requests
        (.ok ([Ecosystem.goodPage] ++ Ecosystem.badPage :: [])) =
      Ecosystem.get_pending_requests (.ok [Ecosystem.goodPage]) ++
      Ecosystem.get_pending_requests (.ok []) :=
  c10_malformed_page_skipped [Ecosystem.goodPage] [] Ecosystem.badPage rfl
